import Mathlib

/-!
Verification development for the `ngx-auth-service` repository.

The definitions below are a shallow embedding of the repository's
TypeScript sources:

* `src/projects/lib/src/lib/auth.service.ts`  — the cookie-based
  `AuthService` variant (modelled here with the `A` suffix);
* `src/unnamed/part_000`                      — the refresh-token
  `AuthService` variant with timer handles (modelled with the `B` suffix);
* `src/projects/lib/src/lib/request.service.ts` — the `RequestService`
  companion.

Host-environment primitives used by the code (`atob`, `JSON.parse`,
`String.prototype.split`, `setTimeout`/`clearTimeout`, `Date.now`,
cookies and navigation) are modelled explicitly: `atob` follows the
WHATWG forgiving-base64 algorithm, `JSON.parse` is a fuelled parser over
a JSON value type (numbers are modelled as integers, which covers every
JWT payload the claims are about; fractional/exponent numeric literals
and lone-surrogate escapes are outside the model and make the parser
fail), time is an explicit integer parameter (unix seconds, matching
`Math.floor(Date.now() / 1000)`), and side effects (navigation, cookies,
network, history) are collected in explicit action lists.  Timers are
modelled as a table of pending `(id, kind)` entries with a fresh-id
counter, matching browser `setTimeout` handles (which are ≥ 1, so JS
truthiness checks on stored handles succeed).
-/

/-- JSON values as produced by `JSON.parse`.  `_decodeJWT` returns the JS
value `null` on any internal failure, which is represented by `Json.null`
(a genuine payload `null` and a failed decode are the same JS value and
behave identically in every caller). -/
inductive Json where
  | null
  | bool (b : Bool)
  | num (n : Int)
  | str (s : String)
  | arr (elems : List Json)
  | obj (fields : List (String × Json))

/-- First-match field lookup in a parsed object; the parser below keeps at
most one entry per key (last write wins, as in `JSON.parse`). -/
def lookupField : List (String × Json) → String → Option Json
  | [], _ => none
  | (k, v) :: rest, key => if k = key then some v else lookupField rest key

/-- Insert a field with JS object semantics: a duplicate key overwrites the
previously parsed value. -/
def addField (fs : List (String × Json)) (k : String) (v : Json) : List (String × Json) :=
  fs.filter (fun p => p.1 != k) ++ [(k, v)]

/-- Whitespace accepted by `JSON.parse` between tokens. -/
def isJsonWs (c : Char) : Bool :=
  c == ' ' || c == '\t' || c == '\n' || c == '\r'

/-- Drop JSON whitespace. -/
def skipWs (cs : List Char) : List Char :=
  cs.dropWhile isJsonWs

/-- Value of a hexadecimal digit, for `\uXXXX` escapes. -/
def hexVal (c : Char) : Option Nat :=
  if '0' ≤ c ∧ c ≤ '9' then some (c.toNat - 48)
  else if 'a' ≤ c ∧ c ≤ 'f' then some (c.toNat - 87)
  else if 'A' ≤ c ∧ c ≤ 'F' then some (c.toNat - 55)
  else none

/-- Body of a JSON string literal (the opening quote already consumed).
Unescaped control characters are rejected, as in `JSON.parse`. -/
def parseStringBody : List Char → List Char → Option (String × List Char)
  | _, [] => none
  | acc, '"' :: rest => some (String.mk acc.reverse, rest)
  | acc, '\\' :: rest =>
    match rest with
    | '"' :: r => parseStringBody ('"' :: acc) r
    | '\\' :: r => parseStringBody ('\\' :: acc) r
    | '/' :: r => parseStringBody ('/' :: acc) r
    | 'b' :: r => parseStringBody ('\x08' :: acc) r
    | 'f' :: r => parseStringBody ('\x0C' :: acc) r
    | 'n' :: r => parseStringBody ('\n' :: acc) r
    | 'r' :: r => parseStringBody ('\r' :: acc) r
    | 't' :: r => parseStringBody ('\t' :: acc) r
    | 'u' :: h1 :: h2 :: h3 :: h4 :: r =>
      match hexVal h1, hexVal h2, hexVal h3, hexVal h4 with
      | some a, some b, some c, some d =>
          parseStringBody (Char.ofNat (((a * 16 + b) * 16 + c) * 16 + d) :: acc) r
      | _, _, _, _ => none
    | _ => none
  | acc, c :: rest => if c.toNat < 32 then none else parseStringBody (c :: acc) rest

/-- Digit run of a JSON number; rejects leading zeros (as JSON does) and
fraction/exponent continuations (outside the integer model). -/
def parseNatDigits (cs : List Char) : Option (Nat × List Char) :=
  let digits := cs.takeWhile Char.isDigit
  let rest := cs.dropWhile Char.isDigit
  match digits with
  | [] => none
  | '0' :: _ :: _ => none
  | _ =>
    match rest with
    | '.' :: _ => none
    | 'e' :: _ => none
    | 'E' :: _ => none
    | _ => some (digits.foldl (fun a c => a * 10 + (c.toNat - 48)) 0, rest)

/-- JSON number (optional minus sign, integer part). -/
def parseNum (cs : List Char) : Option (Json × List Char) :=
  match cs with
  | '-' :: rest => (parseNatDigits rest).map (fun p => (Json.num (-(p.1 : Int)), p.2))
  | _ => (parseNatDigits cs).map (fun p => (Json.num (p.1 : Int), p.2))

mutual

/-- One JSON value, with fuel bounding the nesting depth. -/
def parseVal : Nat → List Char → Option (Json × List Char)
  | 0, _ => none
  | Nat.succ fuel, cs =>
    match skipWs cs with
    | 'n' :: 'u' :: 'l' :: 'l' :: rest => some (Json.null, rest)
    | 't' :: 'r' :: 'u' :: 'e' :: rest => some (Json.bool true, rest)
    | 'f' :: 'a' :: 'l' :: 's' :: 'e' :: rest => some (Json.bool false, rest)
    | '"' :: rest =>
      match parseStringBody [] rest with
      | some (s, r) => some (Json.str s, r)
      | none => none
    | '[' :: rest =>
      match skipWs rest with
      | ']' :: r2 => some (Json.arr [], r2)
      | cs2 => parseArrLoop fuel cs2 []
    | '\x7b' :: rest =>
      match skipWs rest with
      | '\x7d' :: r2 => some (Json.obj [], r2)
      | cs2 => parseObjLoop fuel cs2 []
    | cs2 => parseNum cs2

/-- Comma-separated array elements, after the opening bracket. -/
def parseArrLoop : Nat → List Char → List Json → Option (Json × List Char)
  | 0, _, _ => none
  | Nat.succ fuel, cs, acc =>
    match parseVal fuel cs with
    | none => none
    | some (v, rest) =>
      match skipWs rest with
      | ',' :: rest2 => parseArrLoop fuel rest2 (acc ++ [v])
      | ']' :: rest2 => some (Json.arr (acc ++ [v]), rest2)
      | _ => none

/-- Comma-separated object members, after the opening brace. -/
def parseObjLoop : Nat → List Char → List (String × Json) → Option (Json × List Char)
  | 0, _, _ => none
  | Nat.succ fuel, cs, acc =>
    match skipWs cs with
    | '"' :: rest =>
      match parseStringBody [] rest with
      | none => none
      | some (k, rest1) =>
        match skipWs rest1 with
        | ':' :: rest2 =>
          match parseVal fuel rest2 with
          | none => none
          | some (v, rest3) =>
            match skipWs rest3 with
            | ',' :: rest4 => parseObjLoop fuel rest4 (addField acc k v)
            | '\x7d' :: rest4 => some (Json.obj (addField acc k v), rest4)
            | _ => none
        | _ => none
    | _ => none

end

/-- Model of `JSON.parse`: parse one value and require only trailing
whitespace after it. -/
def jsonParse (s : String) : Option Json :=
  let cs := s.toList
  match parseVal (cs.length + 1) cs with
  | some (v, rest) => if (skipWs rest).isEmpty then some v else none
  | none => none

/-- Whitespace stripped by the WHATWG forgiving-base64 algorithm (`atob`). -/
def isB64Ws (c : Char) : Bool :=
  c == '\x09' || c == '\x0A' || c == '\x0C' || c == '\x0D' || c == ' '

/-- Value of a base64 alphabet character. -/
def b64Val (c : Char) : Option Nat :=
  if 'A' ≤ c ∧ c ≤ 'Z' then some (c.toNat - 65)
  else if 'a' ≤ c ∧ c ≤ 'z' then some (c.toNat - 71)
  else if '0' ≤ c ∧ c ≤ '9' then some (c.toNat + 4)
  else if c = '+' then some 62
  else if c = '/' then some 63
  else none

/-- Remove up to two trailing padding characters (only applied when the
length is a multiple of four, per forgiving-base64). -/
def stripB64Pad (cs : List Char) : List Char :=
  match cs.reverse with
  | '=' :: '=' :: rest => rest.reverse
  | '=' :: rest => rest.reverse
  | _ => cs

/-- Pack groups of six-bit values into bytes; a trailing group of two or
three sextets contributes one or two bytes. -/
def sextetsToBytes : List Nat → List Nat
  | a :: b :: c :: d :: rest =>
      (a * 4 + b / 16) :: ((b % 16) * 16 + c / 4) :: ((c % 4) * 64 + d) :: sextetsToBytes rest
  | [a, b] => [a * 4 + b / 16]
  | [a, b, c] => [a * 4 + b / 16, (b % 16) * 16 + c / 4]
  | _ => []

/-- Model of the browser `atob` (WHATWG forgiving-base64 decode): strip
ASCII whitespace, strip padding when the length is a multiple of four,
fail on a remainder of one or on any character outside the alphabet
(including leftover `=`), then decode to a byte string. -/
def atobJS (s : String) : Except Unit String :=
  let cs := s.toList.filter (fun c => !(isB64Ws c))
  let cs := if cs.length % 4 == 0 then stripB64Pad cs else cs
  if cs.length % 4 == 1 then Except.error ()
  else
    match cs.mapM b64Val with
    | none => Except.error ()
    | some xs => Except.ok (String.mk ((sextetsToBytes xs).map Char.ofNat))

/-- Model of `AuthService._base64UrlDecode`: translate the url-safe
alphabet back to standard base64, pad to a multiple of four with `=`,
then `atob`. -/
def base64UrlDecode (s : String) : Except Unit String :=
  let t := s.toList.map (fun c => if c == '-' then '+' else if c == '_' then '/' else c)
  let padded := if t.length % 4 == 0 then t else t ++ List.replicate (4 - t.length % 4) '='
  atobJS (String.mk padded)

/-- Model of `token.split(".")`: JS `String.prototype.split` with a
one-character separator (an empty string yields `[""]`). -/
def splitDotAux : List Char → List Char → List String
  | [], acc => [String.mk acc.reverse]
  | '.' :: rest, acc => String.mk acc.reverse :: splitDotAux rest []
  | c :: rest, acc => splitDotAux rest (c :: acc)

/-- Split a token on `.`. -/
def splitOnDot (s : String) : List String :=
  splitDotAux s.toList []

/-- Model of `AuthService._decodeJWT`: destructure
`[header, payload, signature] = token.split(".")` (only `payload`, the
second segment, is consumed — a missing second segment makes
`_base64UrlDecode(undefined)` throw a `TypeError`), base64url-decode it
and `JSON.parse` the result.  Every internal exception is caught and
surfaced as the JS value `null`. -/
def decodeJWT (token : String) : Json :=
  match (splitOnDot token)[1]? with
  | none => Json.null
  | some payload =>
    match base64UrlDecode payload with
    | Except.error _ => Json.null
    | Except.ok decoded =>
      match jsonParse decoded with
      | none => Json.null
      | some v => v

/-- Whitespace trimmed by JS `Number(string)` coercion (common subset). -/
def isJsWs (c : Char) : Bool :=
  c == ' ' || c == '\t' || c == '\n' || c == '\r'

/-- Digit run for `Number(string)`; requires the whole remainder to be
digits. -/
def digitsToNat (cs : List Char) : Option Nat :=
  match cs with
  | [] => none
  | _ =>
    if cs.all Char.isDigit then
      some (cs.foldl (fun a c => a * 10 + (c.toNat - 48)) 0)
    else none

/-- Model of JS `Number(string)` restricted to integer literals: the
trimmed empty string is `0`, an optionally signed digit run is its value,
anything else is `NaN` (`none`).  Fractional, exponent and hexadecimal
literals are outside the model. -/
def strToNumber (s : String) : Option Int :=
  let cs := ((s.toList.dropWhile isJsWs).reverse.dropWhile isJsWs).reverse
  match cs with
  | [] => some 0
  | '-' :: rest => (digitsToNat rest).map (fun n => -(n : Int))
  | '+' :: rest => (digitsToNat rest).map (fun n => (n : Int))
  | _ => (digitsToNat cs).map (fun n => (n : Int))

/-- Model of JS `ToNumber` as it occurs in `expirationDate - currentTime`:
`undefined` (the `none` argument) is `NaN`, `null` is `0`, booleans are
`0`/`1`, strings coerce via `strToNumber`.  Arrays and objects are
modelled as `NaN` (their `ToPrimitive` round-trip is out of scope). -/
def jsToNumber : Option Json → Option Int
  | none => none
  | some Json.null => some 0
  | some (Json.bool b) => some (if b then 1 else 0)
  | some (Json.num n) => some n
  | some (Json.str s) => strToNumber s
  | some (Json.arr _) => none
  | some (Json.obj _) => none

/-- Property access `payload.key` on a value known not to be `null`:
objects yield the field (or `undefined` = `none`), primitives and arrays
yield `undefined`. -/
def getFieldNN (v : Json) (key : String) : Option Json :=
  match v with
  | Json.obj fs => lookupField fs key
  | _ => none

/-- Model of `timeUntilExpiry.inSeconds <= 0` under JS comparison:
`NaN <= 0` is `false`. -/
def jsLeZero : Option Int → Bool
  | some v => decide (v ≤ 0)
  | none => false

/-- Exception raised by `_extractInfoFromToken` (the decode failure is
caught inside it and re-thrown as `new Error("Error extracting token
info")`). -/
inductive AuthErr where
  | extract
deriving DecidableEq

/-- Model of the JS expression `token || this.token!`: the explicit
argument when it is a non-empty string, otherwise the field (which may
itself be `undefined`); `none` models both an absent argument and the
default `""`. -/
def effToken (arg : Option String) (stateToken : Option String) : Option String :=
  match arg with
  | some a => if a == "" then stateToken else some a
  | none => stateToken

/-- Token info computed by `AuthService._extractInfoFromToken` in
`src/projects/lib/src/lib/auth.service.ts`; `none` in the numeric fields
models `NaN` (a payload whose `exp` is absent or non-numeric). -/
structure TokenInfoA where
  inMinutes : Option Int
  inSeconds : Option Int
  username : Option Json
  database : Option Json

/-- Model of `AuthService._extractInfoFromToken` (auth.service.ts):
decode the effective token; accessing `.exp` on the JS value `null`
throws a `TypeError`, which the method catches and re-throws as a wrapped
`Error`.  Otherwise the countdown is `exp - now` with
`minutes = Math.floor(seconds / 60)`. -/
def extractInfoA (eff : Option String) (now : Int) : Except AuthErr TokenInfoA :=
  match eff with
  | none => Except.error AuthErr.extract
  | some t =>
    match decodeJWT t with
    | Json.null => Except.error AuthErr.extract
    | payload =>
      let secondsUntilExpiry := (jsToNumber (getFieldNN payload "exp")).map (fun e => e - now)
      let minutes := secondsUntilExpiry.map (fun s2 => Int.fdiv s2 60)
      Except.ok { inMinutes := minutes, inSeconds := secondsUntilExpiry,
                  username := getFieldNN payload "username",
                  database := getFieldNN payload "database" }

/-- Mutable fields of the auth.service.ts `AuthService` observed by the
claims (the DOM popup and the raw `setTimeout` calls of this variant,
which stores no timer handles, are not re-read by any method and are
omitted). -/
structure AuthStateA where
  hasToken : Bool
  token : Option String
  tokenInfo : Option TokenInfoA

/-- Freshly constructed service state. -/
def initStateA : AuthStateA :=
  { hasToken := false, token := none, tokenInfo := none }

/-- Model of `AuthService._isTokenExpired` (auth.service.ts): a throwing
extraction counts as expired; on success the freshly computed info is
stored and `inSeconds <= 0` decides expiry. -/
def isTokenExpiredA (st : AuthStateA) (tokArg : Option String) (now : Int) : Bool × AuthStateA :=
  match extractInfoA (effToken tokArg st.token) now with
  | Except.error _ => (true, st)
  | Except.ok info => (jsLeZero info.inSeconds, { st with tokenInfo := some info })

/-- Model of the public `AuthService.getToken` (auth.service.ts): returns
`undefined` when the held token is expired or fails to decode (the
surrounding `try`/`catch` is dead code because `_isTokenExpired` never
throws). -/
def getTokenA (st : AuthStateA) (now : Int) : Option String × AuthStateA :=
  let r := isTokenExpiredA st st.token now
  if r.1 then (none, r.2) else (r.2.token, r.2)

/-- Model of the public `AuthService.getTokenInfo` (auth.service.ts): it
calls `_extractInfoFromToken()` with no `try`/`catch` of its own, so the
wrapped extraction error propagates to the caller. -/
def getTokenInfoA (st : AuthStateA) (now : Int) : Except AuthErr (Option TokenInfoA × AuthStateA) :=
  match extractInfoA (effToken none st.token) now with
  | Except.error e => Except.error e
  | Except.ok info => Except.ok (some info, { st with tokenInfo := some info })

/-- Model of the public `AuthService.showPopup` (auth.service.ts): it also
calls `_extractInfoFromToken()` unguarded before rendering the popup (the
DOM rendering itself does not touch the service state). -/
def showPopupA (st : AuthStateA) (now : Int) : Except AuthErr AuthStateA :=
  match extractInfoA (effToken none st.token) now with
  | Except.error e => Except.error e
  | Except.ok info => Except.ok { st with tokenInfo := some info }

/-- Model of the private `AuthService._setToken` (auth.service.ts): the
token field and `hasToken` are assigned before `_extractInfoFromToken`
can throw; the `catch` then returns `false` with those mutations already
applied.  `_scheduleExpiration` (popup/redirect `setTimeout`s with no
stored handles in this variant) alters none of these fields. -/
def setTokenA (st : AuthStateA) (tok : String) (now : Int) : Bool × AuthStateA :=
  let st1 : AuthStateA := { st with token := some tok, hasToken := true }
  match extractInfoA (effToken none st1.token) now with
  | Except.error _ => (false, st1)
  | Except.ok info => (true, { st1 with tokenInfo := some info })

/-- Configuration fields of auth.service.ts read by the embedded paths. -/
structure ConfigA where
  authURL : String
  storageKey : String
  disableAutoLogin : Bool

/-- Browser side effects of the auth.service.ts initialization path. -/
inductive ActionA where
  | navigate (url : String)
  | setCookie (name value : String)
deriving DecidableEq

/-- Model of `AuthService._auth` (auth.service.ts): this variant appends
`?nextCallback=` and performs no trailing-slash trimming and no
database/app parameters. -/
def authUrlA (cfg : ConfigA) (ty : String) (current : String) : String :=
  cfg.authURL ++ "/" ++ ty ++ "?nextCallback=" ++ current

/-- Cookie branch of `AuthService._checkToken` (auth.service.ts): an
absent (`""`) or expired cookie token falls through to the auto-login
redirect unless `_disableAutoLogin` is set; `_isTokenExpired` is only
invoked when the cookie value is truthy. -/
def checkCookieA (cfg : ConfigA) (cookieToken : String) (current : String) (now : Int) :
    AuthStateA × List ActionA :=
  if cookieToken == "" then
    if cfg.disableAutoLogin then (initStateA, [])
    else (initStateA, [ActionA.navigate (authUrlA cfg "login" current)])
  else
    let r := isTokenExpiredA initStateA (some cookieToken) now
    if r.1 then
      if cfg.disableAutoLogin then (r.2, [])
      else (r.2, [ActionA.navigate (authUrlA cfg "login" current)])
    else
      ((setTokenA r.2 cookieToken now).2, [])

/-- Model of `AuthService._checkToken` (auth.service.ts), run from the
constructor on a fresh state: a truthy `token` query parameter is
persisted and adopted; otherwise the cookie branch decides. -/
def checkTokenA (cfg : ConfigA) (urlToken : Option String) (cookieToken : String)
    (current : String) (now : Int) : AuthStateA × List ActionA :=
  match urlToken with
  | some t =>
    if t == "" then checkCookieA cfg cookieToken current now
    else ((setTokenA initStateA t now).2, [ActionA.setCookie cfg.storageKey t])
  | none => checkCookieA cfg cookieToken current now

/-- Model of `String.prototype.endsWith("/")` followed by `slice(0, -1)`
(`AuthService._removeTrailingSlash` in part_000, and the
`replace(/\/$/, "")` in `RequestService.setSettings`): strip a single
trailing slash. -/
def removeTrailingSlash (s : String) : String :=
  match s.toList.getLast? with
  | some '/' => String.mk s.toList.dropLast
  | _ => s

/-- Model of `String.prototype.includes`. -/
def includesAux (needle : List Char) : List Char → Bool
  | [] => needle.isEmpty
  | c :: t => needle.isPrefixOf (c :: t) || includesAux needle t

/-- Substring containment test for `window.location.href.includes(...)`. -/
def includesStr (s sub : String) : Bool :=
  includesAux sub.toList s.toList

/-- ASCII model of `String.prototype.toLowerCase`. -/
def lowerStr (s : String) : String :=
  String.mk (s.toList.map Char.toLower)

/-- Template-literal interpolation of a possibly-`undefined` JS string
(`undefined` prints as `"undefined"`). -/
def jsStringOfOpt : Option String → String
  | some s => s
  | none => "undefined"

/-- Token info computed by `AuthService._extractInfoFromToken` in
part_000; unlike the auth.service.ts variant it lower-cases the username,
so the username must be a string for extraction to succeed. -/
structure TokenInfoB where
  inMinutes : Option Int
  inSeconds : Option Int
  username : String
  database : Option Json

/-- Model of `AuthService._extractInfoFromToken` (part_000): as in the
other variant, but `decodedToken.username.toLowerCase()` throws a
`TypeError` (caught and re-thrown wrapped) whenever `username` is absent
or not a string. -/
def extractInfoB (eff : Option String) (now : Int) : Except AuthErr TokenInfoB :=
  match eff with
  | none => Except.error AuthErr.extract
  | some t =>
    match decodeJWT t with
    | Json.null => Except.error AuthErr.extract
    | payload =>
      let secondsUntilExpiry := (jsToNumber (getFieldNN payload "exp")).map (fun e => e - now)
      let minutes := secondsUntilExpiry.map (fun s2 => Int.fdiv s2 60)
      match getFieldNN payload "username" with
      | some (Json.str u) =>
        Except.ok { inMinutes := minutes, inSeconds := secondsUntilExpiry,
                    username := lowerStr u,
                    database := getFieldNN payload "database" }
      | _ => Except.error AuthErr.extract

/-- Configuration fields of part_000 read by the embedded paths
(`_disable` is the test-mode flag that suppresses the auto-login
redirect). -/
structure ConfigB where
  authURL : String
  baseURL : String
  database : Option String
  storageKey : String
  application : Option String
  refreshBeforeExpireInMinutes : Option Int
  showRenewBeforeTenMin : Bool
  _disable : Bool

/-- The three one-shot timers armed by the part_000 expiry scheduler. -/
inductive TimerKind where
  | refresh
  | tenMin
  | redirect
deriving DecidableEq

/-- Mutable fields of the part_000 `AuthService`, together with the host
timer table: `pending` holds the live `setTimeout` entries `(id, kind)`
and `nextTimerId` the next handle the host would allocate (browser
handles start at 1, so a stored handle is always truthy). -/
structure StateB where
  hasToken : Bool
  token : Option String
  refreshToken : Option String
  tokenInfo : Option TokenInfoB
  refreshTimeoutId : Option Nat
  tenMinuteTimeoutId : Option Nat
  redirectTimeoutId : Option Nat
  pending : List (Nat × TimerKind)
  nextTimerId : Nat

/-- Freshly constructed part_000 service state. -/
def initStateB : StateB :=
  { hasToken := false, token := none, refreshToken := none, tokenInfo := none,
    refreshTimeoutId := none, tenMinuteTimeoutId := none, redirectTimeoutId := none,
    pending := [], nextTimerId := 1 }

/-- The timeout-id field holding the handle of a given timer kind. -/
def timerField (st : StateB) : TimerKind → Option Nat
  | TimerKind.refresh => st.refreshTimeoutId
  | TimerKind.tenMin => st.tenMinuteTimeoutId
  | TimerKind.redirect => st.redirectTimeoutId

/-- Write the timeout-id field of a given timer kind. -/
def setTimerField (st : StateB) (k : TimerKind) (v : Option Nat) : StateB :=
  match k with
  | TimerKind.refresh => { st with refreshTimeoutId := v }
  | TimerKind.tenMin => { st with tenMinuteTimeoutId := v }
  | TimerKind.redirect => { st with redirectTimeoutId := v }

/-- Model of one `if (this.xTimeoutId) { clearTimeout(...); this.xTimeoutId
= null; }` block of `_clearTimers` (part_000): a held handle is truthy
(`0` would be falsy, but browsers never return it), the pending entry is
cancelled and the field nulled. -/
def clearKind (st : StateB) (k : TimerKind) : StateB :=
  match timerField st k with
  | some i =>
    if i = 0 then st
    else setTimerField { st with pending := st.pending.filter (fun p => decide (p.1 ≠ i)) } k none
  | none => st

/-- Model of `AuthService._clearTimers` (part_000). -/
def clearTimersB (st : StateB) : StateB :=
  clearKind (clearKind (clearKind st TimerKind.refresh) TimerKind.tenMin) TimerKind.redirect

/-- Model of a `setTimeout` call whose handle is assigned to the field of
kind `k`: allocate a fresh handle, append the pending entry, store it. -/
def armTimer (st : StateB) (k : TimerKind) : StateB :=
  setTimerField
    { st with pending := st.pending ++ [(st.nextTimerId, k)], nextTimerId := st.nextTimerId + 1 }
    k (some st.nextTimerId)

/-- Model of the refresh-window computation at the top of
`AuthService._scheduleExpiryPopup` (part_000):
`refreshBeforeExpireInMinutes || 30` (so `0` and an absent value default
to 30) clamped below to 11 and above to 59. -/
def clampRefreshBefore (c : Option Int) : Int :=
  let refreshBefore : Int :=
    match c with
    | none => 30
    | some v => if v = 0 then 30 else v
  let refreshBefore := if refreshBefore < 11 then 11 else refreshBefore
  if refreshBefore > 59 then 59 else refreshBefore

/-- Model of `AuthService._scheduleExpiryPopup` (part_000), synchronous
part: beyond the clamped refresh window it arms the silent-refresh timer
and, if configured, the ten-minute warning timer; inside the window it
awaits an immediate refresh attempt (popup on failure), arming no timer
synchronously — a successful refresh re-enters `_setTokens`. -/
def scheduleExpiryPopupB (cfg : ConfigB) (st : StateB) (timeUntilExpiryInSeconds : Int) : StateB :=
  let refreshBefore := clampRefreshBefore cfg.refreshBeforeExpireInMinutes
  let refreshBeforeInSeconds := refreshBefore * 60
  if timeUntilExpiryInSeconds > refreshBeforeInSeconds then
    let st1 := armTimer st TimerKind.refresh
    if cfg.showRenewBeforeTenMin then armTimer st1 TimerKind.tenMin else st1
  else st

/-- Model of `AuthService._scheduleRedirect` (part_000): the hard
redirect-to-login timer. -/
def scheduleRedirectB (st : StateB) : StateB :=
  armTimer st TimerKind.redirect

/-- Model of `AuthService._scheduleExpiration` (part_000): clear all
previously armed timers first, then arm the popup/refresh and redirect
timers when the countdown is positive (`NaN > 0` is false). -/
def scheduleExpirationB (cfg : ConfigB) (st : StateB) : StateB :=
  let st1 := clearTimersB st
  match st1.tokenInfo with
  | none => st1
  | some info =>
    match info.inSeconds with
    | some s => if 0 < s then scheduleRedirectB (scheduleExpiryPopupB cfg st1 s) else st1
    | none => st1

/-- Model of `AuthService._setTokens` (part_000): assign the token (and
the refresh token when truthy) and `hasToken` first; a throwing
extraction is caught and reported as `false` with those mutations kept,
otherwise the scheduler is re-armed. -/
def setTokensB (cfg : ConfigB) (st : StateB) (token : String) (refreshToken : Option String)
    (now : Int) : Bool × StateB :=
  let st1 : StateB :=
    { st with
      token := some token,
      refreshToken :=
        match refreshToken with
        | some r => if r == "" then st.refreshToken else some r
        | none => st.refreshToken,
      hasToken := true }
  match extractInfoB (effToken none st1.token) now with
  | Except.error _ => (false, st1)
  | Except.ok info => (true, scheduleExpirationB cfg { st1 with tokenInfo := some info })

/-- Model of `AuthService._isTokenExpired` (part_000). -/
def isTokenExpiredB (st : StateB) (tokArg : Option String) (now : Int) : Bool × StateB :=
  match extractInfoB (effToken tokArg st.token) now with
  | Except.error _ => (true, st)
  | Except.ok info => (jsLeZero info.inSeconds, { st with tokenInfo := some info })

/-- Model of the public `AuthService.getTokens` (part_000): an expired or
undecodable held token yields the empty object. -/
def getTokensB (st : StateB) (now : Int) : (Option String × Option String) × StateB :=
  let r := isTokenExpiredB st st.token now
  if r.1 then ((none, none), r.2) else ((r.2.token, r.2.refreshToken), r.2)

/-- Browser side effects of the part_000 paths. -/
inductive ActionB where
  | navigate (url : String)
  | setCookie (name value : String)
  | removeCookie (name : String)
  | postRefresh (url : String)
  | historyReplace
deriving DecidableEq

/-- Model of `AuthService._auth` (part_000): trim a trailing slash from
the configured auth URL, then
`<authURL>/<type>?next=<currentURL>[&database=<db>]&appName=<app>`; the
database parameter is appended only when `config.database` is truthy,
the `appName` parameter always (an unset `application` interpolates as
`"undefined"`). -/
def authUrlB (cfg : ConfigB) (ty : String) (current : String) : String :=
  let dbParam :=
    match cfg.database with
    | some d => if d == "" then "" else "&database=" ++ d
    | none => ""
  let applicationParam := "&appName=" ++ jsStringOfOpt cfg.application
  removeTrailingSlash cfg.authURL ++ "/" ++ ty ++ "?next=" ++ current ++ dbParam ++ applicationParam

/-- Model of `AuthService._setCookies` (part_000): always persist the
access token under the storage key; persist the refresh token under
`<key>_refresh` only when truthy. -/
def setCookiesB (cfg : ConfigB) (token : String) (refreshToken : Option String) : List ActionB :=
  [ActionB.setCookie cfg.storageKey token] ++
    (match refreshToken with
     | some r => if r == "" then [] else [ActionB.setCookie (cfg.storageKey ++ "_refresh") r]
     | none => [])

/-- Model of `AuthService._disableRefresh` (part_000): drop the in-memory
refresh token and expire its cookie. -/
def disableRefreshB (cfg : ConfigB) (st : StateB) : StateB × List ActionB :=
  ({ st with refreshToken := none }, [ActionB.removeCookie (cfg.storageKey ++ "_refresh")])

/-- Cookie branch of `AuthService._checkToken` (part_000), including the
forbidden-page guard: on an `auth_unauthorized` location an expired
cached token bounces to the base URL and a live one does nothing;
otherwise a truthy, unexpired cookie token is adopted and anything else
triggers the login redirect unless `_disable` is set.  `_isTokenExpired`
runs only when its `&&` operand is reached. -/
def checkCookieBranchB (cfg : ConfigB) (cookieToken : String) (cookieRefresh : Option String)
    (current : String) (now : Int) : StateB × List ActionB :=
  if includesStr current "auth_unauthorized" then
    let r := isTokenExpiredB initStateB (some cookieToken) now
    if r.1 then (r.2, [ActionB.navigate (removeTrailingSlash cfg.baseURL)]) else (r.2, [])
  else
    if cookieToken == "" then
      if cfg._disable then (initStateB, [])
      else (initStateB, [ActionB.navigate (authUrlB cfg "login" current)])
    else
      let r := isTokenExpiredB initStateB (some cookieToken) now
      if r.1 then
        if cfg._disable then (r.2, [])
        else (r.2, [ActionB.navigate (authUrlB cfg "login" current)])
      else
        ((setTokensB cfg r.2 cookieToken cookieRefresh now).2, [])

/-- Model of `AuthService._checkToken` (part_000), run from the
constructor on a fresh state: a truthy `token` query parameter (with
`refresh_token` defaulted to `""`) is persisted, adopted, and the URL
cleaned via history-replace; otherwise the cookie branch decides. -/
def checkTokenB (cfg : ConfigB) (urlToken urlRefresh : Option String) (cookieToken : String)
    (cookieRefresh : Option String) (current : String) (now : Int) : StateB × List ActionB :=
  let refreshFromURL := match urlRefresh with | some r => r | none => ""
  match urlToken with
  | some t =>
    if t == "" then checkCookieBranchB cfg cookieToken cookieRefresh current now
    else
      ((setTokensB cfg initStateB t (some refreshFromURL) now).2,
       setCookiesB cfg t (some refreshFromURL) ++ [ActionB.historyReplace])
  | none => checkCookieBranchB cfg cookieToken cookieRefresh current now

/-- Body of a successful `POST <authURL>/refresh` response; the token
fields are modelled as strings (absent keys are `none`). -/
structure RefreshBody where
  access_token : Option String
  refresh_token : Option String
deriving DecidableEq

/-- Outcome of the refresh HTTP call: a transport/HTTP error (rejected
promise) or a parsed JSON body (`none` for a `null` body). -/
inductive RefreshResponse where
  | transportError
  | ok (body : Option RefreshBody)
deriving DecidableEq

/-- Model of the public `AuthService.tryToRefreshToken` (part_000): with
no (or an empty) refresh token it fails fast without a network call; with
one, it posts to `<authURL>/refresh` and adopts a truthy `access_token`
from the response (persisting via `_setCookies` and re-entering
`_setTokens`); on any other response shape or transport failure it calls
`_disableRefresh` and reports `false`. -/
def tryToRefreshTokenB (cfg : ConfigB) (st : StateB) (resp : RefreshResponse) (now : Int) :
    Bool × StateB × List ActionB :=
  match st.refreshToken with
  | none => (false, st, [])
  | some rt =>
    if rt == "" then (false, st, [])
    else
      let netAct := [ActionB.postRefresh (removeTrailingSlash cfg.authURL ++ "/refresh")]
      match resp with
      | RefreshResponse.transportError =>
        let r := disableRefreshB cfg st
        (false, r.1, netAct ++ r.2)
      | RefreshResponse.ok none =>
        let r := disableRefreshB cfg st
        (false, r.1, netAct ++ r.2)
      | RefreshResponse.ok (some b) =>
        match b.access_token with
        | none =>
          let r := disableRefreshB cfg st
          (false, r.1, netAct ++ r.2)
        | some a =>
          if a == "" then
            let r := disableRefreshB cfg st
            (false, r.1, netAct ++ r.2)
          else
            (true,
             (setTokensB cfg st a b.refresh_token now).2,
             netAct ++ setCookiesB cfg a b.refresh_token)

/-- Complete API settings held by `RequestService` after `setSettings`. -/
structure ApiSettingsR where
  apiURL : String
  transformKeys : Bool
  retryCount : Int
deriving DecidableEq

/-- Per-call `Partial<ApiSettings>` override of `makeRequest`. -/
structure CustomApiSettings where
  apiURL : Option String
  transformKeys : Option Bool
  retryCount : Option Int
deriving DecidableEq

/-- Mutable fields of `RequestService`
(src/projects/lib/src/lib/request.service.ts). -/
structure RequestState where
  apiSettings : Option ApiSettingsR
  token : Option String

/-- Model of the `RequestService` constructor: it reads
`authService.getTokens()` once and stores the access token; nothing else
ever writes `this.token`. -/
def mkRequestService (auth : StateB) (now : Int) : RequestState × StateB :=
  let r := getTokensB auth now
  ({ apiSettings := none, token := r.1.1 }, r.2)

/-- Model of `RequestService.setSettings`: store the API settings with the
trailing slash of the URL removed; the captured token is untouched. -/
def setSettingsR (rs : RequestState) (apiURL : String) (transformKeys : Bool) (retryCount : Int) :
    RequestState :=
  let settings : ApiSettingsR :=
    { apiURL := removeTrailingSlash apiURL, transformKeys := transformKeys,
      retryCount := retryCount }
  { rs with apiSettings := some settings }

/-- Errors thrown synchronously by `RequestService.makeRequest`. -/
inductive ReqError where
  | settingsNotSet
  | noToken
  | unsupportedMethod (m : String)
deriving DecidableEq

/-- The outgoing HTTP request assembled by `makeRequest`. -/
structure ReqSpec where
  url : String
  authorization : String
  contentType : String
  method : String
deriving DecidableEq

/-- Spread-merge `{ ...this.apiSettings, ...customApiSettings }`: fields
present on the per-call override win. -/
def mergeApiSettings (base : Option ApiSettingsR) (custom : Option CustomApiSettings) :
    CustomApiSettings :=
  let b : CustomApiSettings :=
    match base with
    | some s => { apiURL := some s.apiURL, transformKeys := some s.transformKeys,
                  retryCount := some s.retryCount }
    | none => { apiURL := none, transformKeys := none, retryCount := none }
  match custom with
  | none => b
  | some p =>
    { apiURL := match p.apiURL with | some u => some u | none => b.apiURL,
      transformKeys := match p.transformKeys with | some t => some t | none => b.transformKeys,
      retryCount := match p.retryCount with | some r => some r | none => b.retryCount }

/-- Model of `RequestService.makeRequest` up to the point where the HTTP
request is handed to the client: it throws when no settings were provided
(neither stored nor per-call), then when the token captured at
construction is falsy, then assembles the URL and the
`Authorization: Bearer` / `Content-Type` headers from the captured token
only.  The second argument is the auth service's state at the time of the
call; the source never reads it here (only the constructor-captured
`this.token`), which the theorems below make explicit. -/
def makeRequestR (rs : RequestState) (_currentAuth : StateB) (method route : String)
    (custom : Option CustomApiSettings) : Except ReqError ReqSpec :=
  if rs.apiSettings.isNone && custom.isNone then Except.error ReqError.settingsNotSet
  else
    match rs.token with
    | none => Except.error ReqError.noToken
    | some t =>
      if t == "" then Except.error ReqError.noToken
      else
        let merged := mergeApiSettings rs.apiSettings custom
        let url := jsStringOfOpt merged.apiURL ++ "/" ++ route
        if method == "GET" || method == "POST" || method == "PUT" || method == "PATCH" then
          Except.ok { url := url, authorization := "Bearer " ++ t,
                      contentType := "application/json", method := method }
        else Except.error (ReqError.unsupportedMethod method)

/-- The JS default-argument expression picks the state token when no
argument is given. -/
theorem effToken_none (stT : Option String) : effToken none stT = stT := rfl

/-- Passing a token equal to the held one yields that token. -/
theorem effToken_some_self (t : String) : effToken (some t) (some t) = some t := by
  simp [effToken]

/-- Passing a non-empty token ignores the held one. -/
theorem effToken_some_of_ne (t : String) (stT : Option String) (h : t ≠ "") :
    effToken (some t) stT = some t := by
  simp [effToken, h]

/-- An undecodable effective token makes `_extractInfoFromToken`
(auth.service.ts) throw its wrapped error. -/
theorem extractInfoA_null (t : String) (now : Int) (h : decodeJWT t = Json.null) :
    extractInfoA (some t) now = Except.error AuthErr.extract := by
  simp only [extractInfoA]
  rw [h]

/-- An undecodable effective token makes `_extractInfoFromToken`
(part_000) throw its wrapped error. -/
theorem extractInfoB_null (t : String) (now : Int) (h : decodeJWT t = Json.null) :
    extractInfoB (some t) now = Except.error AuthErr.extract := by
  simp only [extractInfoB]
  rw [h]

/-- Claim C5: the refresh-ahead window actually used by the part_000
expiry scheduler (`_scheduleExpiryPopup`) is `refreshBeforeExpireInMinutes
|| 30` clamped into [11, 59]: every configured value lands in [11, 59],
any value below 11 yields at least 11 (a falsy 0 defaults to 30 first),
any value above 59 yields exactly 59, an absent value defaults to 30, and
in particular 5 is clamped to 11 and 90 to 59. -/
theorem refresh_window_clamped (c : Option Int) :
    (11 ≤ clampRefreshBefore c ∧ clampRefreshBefore c ≤ 59) ∧
    (∀ v : Int, v < 11 → 11 ≤ clampRefreshBefore (some v)) ∧
    (∀ v : Int, 59 < v → clampRefreshBefore (some v) = 59) ∧
    clampRefreshBefore none = 30 ∧
    clampRefreshBefore (some 5) = 11 ∧
    clampRefreshBefore (some 90) = 59 := by
  refine ⟨?_, ?_, ?_, by decide, by decide, by decide⟩
  · unfold clampRefreshBefore
    rcases c with _ | v
    · simp
    · dsimp only
      split_ifs <;> omega
  · intro v hv
    unfold clampRefreshBefore
    dsimp only
    split_ifs <;> omega
  · intro v hv
    unfold clampRefreshBefore
    dsimp only
    split_ifs <;> omega

/-- Witness for C5 at the boundary inputs named by the claim. -/
theorem refresh_window_clamped_witness :
    11 ≤ clampRefreshBefore (some 5) ∧ clampRefreshBefore (some 90) = 59 :=
  ⟨(refresh_window_clamped none).2.1 5 (by decide),
   (refresh_window_clamped none).2.2.1 90 (by decide)⟩

/-- Claim C10: `_setToken` (auth.service.ts) is not atomic on failure.
For every token whose payload cannot be decoded it returns `false`, yet
the token field and the public `hasToken` flag were already assigned, so
afterwards `hasToken` reads `true` while `getToken()` returns absent. -/
theorem setToken_mutates_before_failure (st : AuthStateA) (tok : String) (now : Int)
    (h : decodeJWT tok = Json.null) :
    (setTokenA st tok now).1 = false ∧
    (setTokenA st tok now).2.token = some tok ∧
    (setTokenA st tok now).2.hasToken = true ∧
    (getTokenA (setTokenA st tok now).2 now).1 = none := by
  have he : extractInfoA (effToken none (some tok)) now = Except.error AuthErr.extract := by
    rw [effToken_none]
    exact extractInfoA_null tok now h
  have hset : setTokenA st tok now = (false, { st with token := some tok, hasToken := true }) := by
    simp only [setTokenA]
    rw [he]
  rw [hset]
  refine ⟨rfl, rfl, rfl, ?_⟩
  simp only [getTokenA, isTokenExpiredA]
  rw [effToken_some_self, extractInfoA_null tok now h]
  rfl

/-- Witness for C10 at the undecodable token of the spec scenario. -/
theorem setToken_mutates_before_failure_witness :
    (setTokenA initStateA "not-a-jwt" 0).1 = false ∧
    (setTokenA initStateA "not-a-jwt" 0).2.token = some "not-a-jwt" ∧
    (setTokenA initStateA "not-a-jwt" 0).2.hasToken = true ∧
    (getTokenA (setTokenA initStateA "not-a-jwt" 0).2 0).1 = none :=
  setToken_mutates_before_failure initStateA "not-a-jwt" 0 rfl

/-- Counterexample to claim C1 as stated: with the token `"not-a-jwt"`
held, `getTokenInfo()` and `showPopup()` do NOT return normally — the
wrapped extraction error propagates to the caller (only `getToken()`
catches and returns absent). -/
theorem getTokenInfo_and_showPopup_throw :
    getTokenInfoA { hasToken := true, token := some "not-a-jwt", tokenInfo := none } 0 =
      Except.error AuthErr.extract ∧
    showPopupA { hasToken := true, token := some "not-a-jwt", tokenInfo := none } 0 =
      Except.error AuthErr.extract ∧
    (getTokenA { hasToken := true, token := some "not-a-jwt", tokenInfo := none } 0).1 = none :=
  ⟨rfl, rfl, rfl⟩

/-- Claim C1 (amended): for every held token whose payload fails to
decode, `getToken()` returns normally treating the token as absent and
leaves the state unchanged, while `getTokenInfo()` and `showPopup()`
propagate the wrapped `Error extracting token info` exception to their
caller (the raw decode error itself is still caught inside
`_decodeJWT` / `_extractInfoFromToken`). -/
theorem decode_failure_caught_only_in_getToken (st : AuthStateA) (now : Int) (tok : String)
    (h1 : st.token = some tok) (h2 : decodeJWT tok = Json.null) :
    (getTokenA st now).1 = none ∧ (getTokenA st now).2 = st ∧
    getTokenInfoA st now = Except.error AuthErr.extract ∧
    showPopupA st now = Except.error AuthErr.extract := by
  have he0 : extractInfoA (effToken st.token st.token) now = Except.error AuthErr.extract := by
    rw [h1, effToken_some_self]
    exact extractInfoA_null tok now h2
  have he1 : extractInfoA (effToken none st.token) now = Except.error AuthErr.extract := by
    rw [effToken_none, h1]
    exact extractInfoA_null tok now h2
  refine ⟨?_, ?_, ?_, ?_⟩
  · simp only [getTokenA, isTokenExpiredA]
    rw [he0]
    rfl
  · simp only [getTokenA, isTokenExpiredA]
    rw [he0]
    rfl
  · simp only [getTokenInfoA]
    rw [he1]
  · simp only [showPopupA]
    rw [he1]

/-- Witness for the amended C1 at the spec's `"not-a-jwt"` scenario. -/
theorem decode_failure_caught_only_in_getToken_witness :
    (getTokenA { hasToken := true, token := some "not-a-jwt", tokenInfo := none } 5).1 = none ∧
    (getTokenA { hasToken := true, token := some "not-a-jwt", tokenInfo := none } 5).2 =
      { hasToken := true, token := some "not-a-jwt", tokenInfo := none } ∧
    getTokenInfoA { hasToken := true, token := some "not-a-jwt", tokenInfo := none } 5 =
      Except.error AuthErr.extract ∧
    showPopupA { hasToken := true, token := some "not-a-jwt", tokenInfo := none } 5 =
      Except.error AuthErr.extract :=
  decode_failure_caught_only_in_getToken
    { hasToken := true, token := some "not-a-jwt", tokenInfo := none } 5 "not-a-jwt" rfl rfl

/-- Counterexample to claim C6 as stated: `_decodeJWT` never checks the
segment count, so the two-segment input `"x.e30"` (whose payload segment
decodes to `\x7b\x7d`) decodes successfully instead of failing. -/
theorem decodeJWT_accepts_two_segments :
    decodeJWT "x.e30" = Json.obj [] ∧ (splitOnDot "x.e30").length = 2 :=
  ⟨rfl, rfl⟩

/-- Claim C6 (amended): the codec splits on `.`, base64url-decodes the
second segment (translating `-`/`_` and padding with `=`), and parses the
result as JSON; it fails — yielding the JS value `null` — exactly when
the second segment is missing (in particular for every input with fewer
than two dot-separated segments), is not decodable base64, or does not
decode to valid JSON.  A two-segment input with a valid payload segment
decodes successfully; the third segment is never required. -/
theorem decodeJWT_payload_only (tok : String) :
    ((splitOnDot tok).length ≤ 1 → decodeJWT tok = Json.null) ∧
    (∀ p, (splitOnDot tok)[1]? = some p → base64UrlDecode p = Except.error () →
      decodeJWT tok = Json.null) ∧
    (∀ p s, (splitOnDot tok)[1]? = some p → base64UrlDecode p = Except.ok s →
      jsonParse s = none → decodeJWT tok = Json.null) ∧
    (∀ p s v, (splitOnDot tok)[1]? = some p → base64UrlDecode p = Except.ok s →
      jsonParse s = some v → decodeJWT tok = v) := by
  refine ⟨?_, ?_, ?_, ?_⟩
  · intro h
    simp only [decodeJWT]
    rw [List.getElem?_eq_none h]
  · intro p hp hb
    simp only [decodeJWT]
    rw [hp]
    dsimp only
    rw [hb]
  · intro p s hp hb hj
    simp only [decodeJWT]
    rw [hp]
    dsimp only
    rw [hb]
    dsimp only
    rw [hj]
  · intro p s v hp hb hj
    simp only [decodeJWT]
    rw [hp]
    dsimp only
    rw [hb]
    dsimp only
    rw [hj]

/-- Witness for the amended C6: a one-segment input fails, an invalid
base64 payload fails, and a numeric payload decodes. -/
theorem decodeJWT_payload_only_witness :
    decodeJWT "e30" = Json.null ∧ decodeJWT "x.!!!.y" = Json.null ∧
    decodeJWT "x.MTIz.y" = Json.num 123 :=
  ⟨(decodeJWT_payload_only "e30").1 (by decide),
   (decodeJWT_payload_only "x.!!!.y").2.1 "!!!" rfl rfl,
   (decodeJWT_payload_only "x.MTIz.y").2.2.2 "MTIz" "123" (Json.num 123) rfl rfl rfl⟩

/-- Successful extraction (auth.service.ts): a token decoding to an
object with a numeric `exp` yields the countdown `exp - now` with floored
minutes, and the raw `username`/`database` fields. -/
theorem extractInfoA_obj (t : String) (now e : Int) (fs : List (String × Json))
    (h1 : decodeJWT t = Json.obj fs) (h2 : lookupField fs "exp" = some (Json.num e)) :
    extractInfoA (some t) now = Except.ok
      { inMinutes := some ((e - now).fdiv 60), inSeconds := some (e - now),
        username := lookupField fs "username", database := lookupField fs "database" } := by
  simp only [extractInfoA]
  rw [h1]
  dsimp only [getFieldNN]
  rw [h2]
  rfl

/-- Claim C4: for every well-formed token with a future `exp`,
`getTokenInfo()` (auth.service.ts) returns a record whose
seconds-until-expiry equals `exp - now` exactly (with `now` the
unix-seconds clock at the moment of the call, so the real method is
within one second of `exp - Date.now()/1000`), and whose minutes field
is the floor of that value divided by 60.  The statement holds for an
arbitrary cached `tokenInfo` and an arbitrary `now`: the countdown is
recomputed from the clock on every call, never served from the cache. -/
theorem getTokenInfo_countdown (st : AuthStateA) (now : Int) (tok : String)
    (fs : List (String × Json)) (e : Int)
    (h1 : st.token = some tok) (h2 : decodeJWT tok = Json.obj fs)
    (h3 : lookupField fs "exp" = some (Json.num e)) (h4 : now < e) :
    ∃ info st2, getTokenInfoA st now = Except.ok (some info, st2) ∧
      info.inSeconds = some (e - now) ∧ info.inMinutes = some ((e - now).fdiv 60) ∧
      0 < e - now := by
  have he : extractInfoA (effToken none st.token) now = Except.ok
      { inMinutes := some ((e - now).fdiv 60), inSeconds := some (e - now),
        username := lookupField fs "username", database := lookupField fs "database" } := by
    rw [effToken_none, h1]
    exact extractInfoA_obj tok now e fs h2 h3
  let info : TokenInfoA :=
    { inMinutes := some ((e - now).fdiv 60), inSeconds := some (e - now),
      username := lookupField fs "username", database := lookupField fs "database" }
  refine ⟨info, { st with tokenInfo := some info }, ?_, rfl, rfl, by omega⟩
  simp only [getTokenInfoA]
  rw [he]

/-- Witness for C4 at a token whose payload is `\x7b"exp":100\x7d`, read
at `now = 40`: sixty seconds and one minute remain. -/
theorem getTokenInfo_countdown_witness :
    ∃ info st2,
      getTokenInfoA { hasToken := true, token := some "h.eyJleHAiOjEwMH0.s", tokenInfo := none } 40 =
        Except.ok (some info, st2) ∧
      info.inSeconds = some (100 - 40) ∧ info.inMinutes = some (((100 : Int) - 40).fdiv 60) ∧
      (0 : Int) < 100 - 40 :=
  getTokenInfo_countdown
    { hasToken := true, token := some "h.eyJleHAiOjEwMH0.s", tokenInfo := none } 40
    "h.eyJleHAiOjEwMH0.s" [("exp", Json.num 100)] 100 rfl rfl rfl (by decide)

/-- Claim C3: every well-formed token whose payload has `exp <= now` is
treated as expired by auth.service.ts — `getToken()` returns absent, and
the initialization path with that token persisted in the cookie triggers
the login redirect exactly when the `_disableAutoLogin` test flag is
unset. -/
theorem expired_token_absent_and_redirect (cfg : ConfigA) (st : AuthStateA) (now : Int)
    (tok current : String) (fs : List (String × Json)) (e : Int)
    (h1 : st.token = some tok) (h2 : decodeJWT tok = Json.obj fs)
    (h3 : lookupField fs "exp" = some (Json.num e)) (h4 : e ≤ now) (h5 : tok ≠ "") :
    (getTokenA st now).1 = none ∧
    (cfg.disableAutoLogin = false →
      (checkTokenA cfg none tok current now).2 =
        [ActionA.navigate (authUrlA cfg "login" current)]) ∧
    (cfg.disableAutoLogin = true → (checkTokenA cfg none tok current now).2 = []) := by
  have hinfo := extractInfoA_obj tok now e fs h2 h3
  have hexp : jsLeZero (some (e - now)) = true := by
    simp only [jsLeZero, decide_eq_true_eq]
    omega
  have hbe : (tok == "") = false := by
    simp [h5]
  have hchk : (checkTokenA cfg none tok current now).2 =
      (if cfg.disableAutoLogin then [] else [ActionA.navigate (authUrlA cfg "login" current)]) := by
    simp only [checkTokenA, checkCookieA, isTokenExpiredA]
    rw [hbe]
    simp only [Bool.false_eq_true, if_false]
    rw [effToken_some_of_ne tok initStateA.token h5, hinfo]
    simp only [hexp, if_true]
    split <;> rfl
  refine ⟨?_, ?_, ?_⟩
  · simp only [getTokenA, isTokenExpiredA]
    rw [h1, effToken_some_self, hinfo]
    simp only [hexp]
    rfl
  · intro hd
    rw [hchk, hd]
    rfl
  · intro hd
    rw [hchk, hd]
    rfl

/-- Witness for C3 at the `exp = 100` token read at `now = 100` (the
`exp <= now` boundary), with the disable flag unset: the token is absent
and the login redirect fires. -/
theorem expired_token_absent_and_redirect_witness :
    (getTokenA { hasToken := true, token := some "h.eyJleHAiOjEwMH0.s", tokenInfo := none } 100).1 = none ∧
    (checkTokenA { authURL := "https://auth.example.com", storageKey := "authToken", disableAutoLogin := false }
        none "h.eyJleHAiOjEwMH0.s" "https://example.com/app" 100).2 =
      [ActionA.navigate (authUrlA
        { authURL := "https://auth.example.com", storageKey := "authToken", disableAutoLogin := false }
        "login" "https://example.com/app")] :=
  ⟨(expired_token_absent_and_redirect
      { authURL := "https://auth.example.com", storageKey := "authToken", disableAutoLogin := false }
      { hasToken := true, token := some "h.eyJleHAiOjEwMH0.s", tokenInfo := none } 100
      "h.eyJleHAiOjEwMH0.s" "https://example.com/app" [("exp", Json.num 100)] 100
      rfl rfl rfl (by decide) (by decide)).1,
   (expired_token_absent_and_redirect
      { authURL := "https://auth.example.com", storageKey := "authToken", disableAutoLogin := false }
      { hasToken := true, token := some "h.eyJleHAiOjEwMH0.s", tokenInfo := none } 100
      "h.eyJleHAiOjEwMH0.s" "https://example.com/app" [("exp", Json.num 100)] 100
      rfl rfl rfl (by decide) (by decide)).2.1 rfl⟩

/-- Trimming removes a single trailing slash appended to any URL. -/
theorem removeTrailingSlash_append_slash (u : String) : removeTrailingSlash (u ++ "/") = u := by
  unfold removeTrailingSlash
  rw [show (u ++ "/").toList = u.toList ++ ['/'] from by simp [String.toList]]
  rw [List.getLast?_concat]
  rw [List.dropLast_concat]
  rfl

/-- Trimming leaves a URL without a trailing slash unchanged. -/
theorem removeTrailingSlash_no_slash (u : String) (h : u.toList.getLast? ≠ some '/') :
    removeTrailingSlash u = u := by
  unfold removeTrailingSlash
  split <;> simp_all

/-- Claim C7: the part_000 redirect gateway navigates to
`<authURL>/<kind>?next=<currentURL>`, followed by `&database=<db>` when a
database is configured (and truthy) and by `&appName=<app>` always, after
trimming any trailing slash from the configured auth URL; and the
initialization path with no token anywhere and `_disable` unset emits
exactly that login navigation. -/
theorem login_redirect_url_shape (cfg : ConfigB) (current : String) (now : Int)
    (h1 : cfg._disable = false)
    (h2 : includesStr current "auth_unauthorized" = false) :
    (checkTokenB cfg none none "" none current now).2 =
      [ActionB.navigate (authUrlB cfg "login" current)] ∧
    (∀ ty d, cfg.database = some d → d ≠ "" →
      authUrlB cfg ty current =
        removeTrailingSlash cfg.authURL ++ "/" ++ ty ++ "?next=" ++ current ++
          ("&database=" ++ d) ++ ("&appName=" ++ jsStringOfOpt cfg.application)) ∧
    (∀ ty, cfg.database = none →
      authUrlB cfg ty current =
        removeTrailingSlash cfg.authURL ++ "/" ++ ty ++ "?next=" ++ current ++
          ("&appName=" ++ jsStringOfOpt cfg.application)) ∧
    (∀ u : String, removeTrailingSlash (u ++ "/") = u) := by
  refine ⟨?_, ?_, ?_, removeTrailingSlash_append_slash⟩
  · simp [checkTokenB, checkCookieBranchB, h1, h2]
  · intro ty d hdb hd
    simp [authUrlB, hdb, hd]
  · intro ty hdb
    simp [authUrlB, hdb]

/-- Example part_000 configuration used by the concrete witnesses. -/
def cfgExample : ConfigB :=
  { authURL := "https://auth.example.com/", baseURL := "https://example.com/app",
    database := some "db1", storageKey := "authToken", application := some "default",
    refreshBeforeExpireInMinutes := some 30, showRenewBeforeTenMin := true, _disable := false }

/-- Witness for C7: with no token anywhere and the disable flag unset,
the browser navigates to the login URL built for the example
configuration. -/
theorem login_redirect_url_shape_witness :
    (checkTokenB cfgExample none none "" none "https://example.com/app/page" 0).2 =
      [ActionB.navigate (authUrlB cfgExample "login" "https://example.com/app/page")] :=
  (login_redirect_url_shape cfgExample "https://example.com/app/page" 0 rfl (by decide)).1

/-- Writing a timeout-id field leaves the pending timer table unchanged. -/
theorem setTimerField_pending (st : StateB) (k : TimerKind) (v : Option Nat) :
    (setTimerField st k v).pending = st.pending := by
  cases k <;> rfl

/-- Writing a timeout-id field leaves the handle counter unchanged. -/
theorem setTimerField_nextTimerId (st : StateB) (k : TimerKind) (v : Option Nat) :
    (setTimerField st k v).nextTimerId = st.nextTimerId := by
  cases k <;> rfl

/-- Writing a timeout-id field leaves the token unchanged. -/
theorem setTimerField_token (st : StateB) (k : TimerKind) (v : Option Nat) :
    (setTimerField st k v).token = st.token := by
  cases k <;> rfl

/-- Reading back the timeout-id field just written. -/
theorem timerField_setTimerField_same (st : StateB) (k : TimerKind) (v : Option Nat) :
    timerField (setTimerField st k v) k = v := by
  cases k <;> rfl

/-- Writing one kind's timeout-id field leaves the others unchanged. -/
theorem timerField_setTimerField_ne (st : StateB) (k k2 : TimerKind) (v : Option Nat)
    (h : k2 ≠ k) : timerField (setTimerField st k v) k2 = timerField st k2 := by
  cases k <;> cases k2 <;> first | rfl | exact absurd rfl h

/-- Arming appends one pending entry with the fresh handle. -/
theorem armTimer_pending (st : StateB) (k : TimerKind) :
    (armTimer st k).pending = st.pending ++ [(st.nextTimerId, k)] := by
  unfold armTimer
  rw [setTimerField_pending]

/-- Arming bumps the handle counter. -/
theorem armTimer_nextTimerId (st : StateB) (k : TimerKind) :
    (armTimer st k).nextTimerId = st.nextTimerId + 1 := by
  unfold armTimer
  rw [setTimerField_nextTimerId]

/-- Arming a timer leaves the token unchanged. -/
theorem armTimer_token (st : StateB) (k : TimerKind) :
    (armTimer st k).token = st.token := by
  unfold armTimer
  rw [setTimerField_token]

/-- The armed kind's field holds the fresh handle. -/
theorem timerField_armTimer_same (st : StateB) (k : TimerKind) :
    timerField (armTimer st k) k = some st.nextTimerId := by
  unfold armTimer
  rw [timerField_setTimerField_same]

/-- Arming one kind leaves the other kinds' fields unchanged. -/
theorem timerField_armTimer_ne (st : StateB) (k k2 : TimerKind) (h : k2 ≠ k) :
    timerField (armTimer st k) k2 = timerField st k2 := by
  unfold armTimer
  rw [timerField_setTimerField_ne _ _ _ _ h]
  cases k2 <;> rfl

/-- Clearing a timer leaves the token unchanged. -/
theorem clearKind_token (st : StateB) (k : TimerKind) :
    (clearKind st k).token = st.token := by
  unfold clearKind
  split
  · split
    · rfl
    · rw [setTimerField_token]
  · rfl

/-- Clearing a timer leaves the handle counter unchanged. -/
theorem clearKind_nextTimerId (st : StateB) (k : TimerKind) :
    (clearKind st k).nextTimerId = st.nextTimerId := by
  unfold clearKind
  split
  · split
    · rfl
    · rw [setTimerField_nextTimerId]
  · rfl

/-- `_clearTimers` leaves the token unchanged. -/
theorem clearTimersB_token (st : StateB) : (clearTimersB st).token = st.token := by
  unfold clearTimersB
  rw [clearKind_token, clearKind_token, clearKind_token]

/-- `_clearTimers` leaves the handle counter unchanged. -/
theorem clearTimersB_nextTimerId (st : StateB) :
    (clearTimersB st).nextTimerId = st.nextTimerId := by
  unfold clearTimersB
  rw [clearKind_nextTimerId, clearKind_nextTimerId, clearKind_nextTimerId]

/-- The popup/refresh scheduler leaves the token unchanged. -/
theorem scheduleExpiryPopupB_token (cfg : ConfigB) (st : StateB) (s : Int) :
    (scheduleExpiryPopupB cfg st s).token = st.token := by
  unfold scheduleExpiryPopupB
  dsimp only
  split
  · split
    · rw [armTimer_token, armTimer_token]
    · rw [armTimer_token]
  · rfl

/-- The redirect scheduler leaves the token unchanged. -/
theorem scheduleRedirectB_token (st : StateB) : (scheduleRedirectB st).token = st.token := by
  unfold scheduleRedirectB
  rw [armTimer_token]

/-- `_scheduleExpiration` leaves the token unchanged. -/
theorem scheduleExpirationB_token (cfg : ConfigB) (st : StateB) :
    (scheduleExpirationB cfg st).token = st.token := by
  unfold scheduleExpirationB
  dsimp only
  split
  · rw [clearTimersB_token]
  · split
    · split
      · rw [scheduleRedirectB_token, scheduleExpiryPopupB_token, clearTimersB_token]
      · rw [clearTimersB_token]
    · rw [clearTimersB_token]

/-- `_setTokens` always ends with the given access token held, whether or
not extraction succeeded. -/
theorem setTokensB_token (cfg : ConfigB) (st : StateB) (tok : String) (rtok : Option String)
    (now : Int) : (setTokensB cfg st tok rtok now).2.token = some tok := by
  unfold setTokensB
  dsimp only
  cases hE : extractInfoB (effToken none (some tok)) now with
  | error e => rfl
  | ok info =>
    dsimp only
    rw [scheduleExpirationB_token]

/-- Claim C8: with a (truthy) refresh token held, `tryToRefreshToken`
(part_000) returns `true` exactly when the response contains a truthy
`access_token`; in that case the new token is adopted (re-entering
`_setTokens`) and persisted in the cookie, and the `<authURL>/refresh`
post was issued.  On any other response shape or transport failure it
returns `false`, drops the in-memory refresh token, expires the persisted
refresh cookie, and every subsequent call fails fast, returning `false`
with no network action. -/
theorem tryToRefreshToken_spec (cfg : ConfigB) (st : StateB) (resp : RefreshResponse) (now : Int)
    (rt : String) (h1 : st.refreshToken = some rt) (h2 : rt ≠ "") :
    ((tryToRefreshTokenB cfg st resp now).1 = true ↔
      ∃ b a, resp = RefreshResponse.ok (some b) ∧ b.access_token = some a ∧ a ≠ "") ∧
    (∀ b a, resp = RefreshResponse.ok (some b) → b.access_token = some a → a ≠ "" →
      (tryToRefreshTokenB cfg st resp now).2.1.token = some a ∧
      ActionB.setCookie cfg.storageKey a ∈ (tryToRefreshTokenB cfg st resp now).2.2 ∧
      ActionB.postRefresh (removeTrailingSlash cfg.authURL ++ "/refresh") ∈
        (tryToRefreshTokenB cfg st resp now).2.2) ∧
    ((tryToRefreshTokenB cfg st resp now).1 = false →
      (tryToRefreshTokenB cfg st resp now).2.1.refreshToken = none ∧
      ActionB.removeCookie (cfg.storageKey ++ "_refresh") ∈ (tryToRefreshTokenB cfg st resp now).2.2 ∧
      ∀ resp2 now2,
        tryToRefreshTokenB cfg (tryToRefreshTokenB cfg st resp now).2.1 resp2 now2 =
          (false, (tryToRefreshTokenB cfg st resp now).2.1, [])) := by
  have hbe : (rt == "") = false := by simp [h2]
  have hfail : ∀ hval : tryToRefreshTokenB cfg st resp now =
        (false, { st with refreshToken := none },
         [ActionB.postRefresh (removeTrailingSlash cfg.authURL ++ "/refresh"),
          ActionB.removeCookie (cfg.storageKey ++ "_refresh")]),
      ((tryToRefreshTokenB cfg st resp now).1 = false →
        (tryToRefreshTokenB cfg st resp now).2.1.refreshToken = none ∧
        ActionB.removeCookie (cfg.storageKey ++ "_refresh") ∈ (tryToRefreshTokenB cfg st resp now).2.2 ∧
        ∀ resp2 now2,
          tryToRefreshTokenB cfg (tryToRefreshTokenB cfg st resp now).2.1 resp2 now2 =
            (false, (tryToRefreshTokenB cfg st resp now).2.1, [])) := by
    intro hval _
    rw [hval]
    refine ⟨rfl, by simp, fun resp2 now2 => rfl⟩
  rcases resp with _ | body
  · have hval : tryToRefreshTokenB cfg st RefreshResponse.transportError now =
        (false, { st with refreshToken := none },
         [ActionB.postRefresh (removeTrailingSlash cfg.authURL ++ "/refresh"),
          ActionB.removeCookie (cfg.storageKey ++ "_refresh")]) := by
      simp [tryToRefreshTokenB, h1, hbe, disableRefreshB]
    refine ⟨?_, ?_, hfail hval⟩
    · rw [hval]
      simp
    · rintro b a hb - -
      exact absurd hb (by simp)
  · rcases body with _ | b
    · have hval : tryToRefreshTokenB cfg st (RefreshResponse.ok none) now =
          (false, { st with refreshToken := none },
           [ActionB.postRefresh (removeTrailingSlash cfg.authURL ++ "/refresh"),
            ActionB.removeCookie (cfg.storageKey ++ "_refresh")]) := by
        simp [tryToRefreshTokenB, h1, hbe, disableRefreshB]
      refine ⟨?_, ?_, hfail hval⟩
      · rw [hval]
        simp
      · rintro b a hb - -
        exact absurd hb (by simp)
    · rcases hA : b.access_token with _ | a
      · have hval : tryToRefreshTokenB cfg st (RefreshResponse.ok (some b)) now =
            (false, { st with refreshToken := none },
             [ActionB.postRefresh (removeTrailingSlash cfg.authURL ++ "/refresh"),
              ActionB.removeCookie (cfg.storageKey ++ "_refresh")]) := by
          simp [tryToRefreshTokenB, h1, hbe, disableRefreshB, hA]
        refine ⟨?_, ?_, hfail hval⟩
        · rw [hval]
          simp only [Bool.false_eq_true, false_iff]
          rintro ⟨b2, a2, hb2, ha2, hae2⟩
          injection hb2 with hb3
          injection hb3 with hb4
          rw [← hb4, hA] at ha2
          exact Option.noConfusion ha2
        · rintro b2 a2 hb2 ha2 -
          injection hb2 with hb3
          injection hb3 with hb4
          rw [← hb4, hA] at ha2
          exact Option.noConfusion ha2
      · by_cases hAe : a = ""
        · subst hAe
          have hval : tryToRefreshTokenB cfg st (RefreshResponse.ok (some b)) now =
              (false, { st with refreshToken := none },
               [ActionB.postRefresh (removeTrailingSlash cfg.authURL ++ "/refresh"),
                ActionB.removeCookie (cfg.storageKey ++ "_refresh")]) := by
            simp [tryToRefreshTokenB, h1, hbe, disableRefreshB, hA]
          refine ⟨?_, ?_, hfail hval⟩
          · rw [hval]
            simp only [Bool.false_eq_true, false_iff]
            rintro ⟨b2, a2, hb2, ha2, hae2⟩
            injection hb2 with hb3
            injection hb3 with hb4
            rw [← hb4, hA] at ha2
            injection ha2 with ha3
            exact hae2 ha3.symm
          · rintro b2 a2 hb2 ha2 hae2
            injection hb2 with hb3
            injection hb3 with hb4
            rw [← hb4, hA] at ha2
            injection ha2 with ha3
            exact absurd ha3.symm hae2
        · have hAbe : (a == "") = false := by simp [hAe]
          have hval : tryToRefreshTokenB cfg st (RefreshResponse.ok (some b)) now =
              (true, (setTokensB cfg st a b.refresh_token now).2,
               ActionB.postRefresh (removeTrailingSlash cfg.authURL ++ "/refresh") ::
                 setCookiesB cfg a b.refresh_token) := by
            simp [tryToRefreshTokenB, h1, hbe, disableRefreshB, hA, hAbe]
          refine ⟨?_, ?_, ?_⟩
          · rw [hval]
            simp only [true_iff]
            exact ⟨b, a, rfl, hA, hAe⟩
          · rintro b2 a2 hb2 ha2 -
            injection hb2 with hb3
            injection hb3 with hb4
            rw [← hb4, hA] at ha2
            injection ha2 with ha3
            subst ha3
            rw [hval]
            refine ⟨setTokensB_token cfg st a b.refresh_token now, ?_, by simp⟩
            simp [setCookiesB]
          · rw [hval]
            intro hcontra
            exact absurd hcontra (by simp)

/-- Witness for C8 at a transport failure with a held refresh token: the
refresh token is dropped, its cookie removed, and every subsequent
attempt fails fast with no network action. -/
theorem tryToRefreshToken_spec_witness :
    (tryToRefreshTokenB cfgExample { initStateB with refreshToken := some "r" }
        RefreshResponse.transportError 0).2.1.refreshToken = none ∧
    ActionB.removeCookie (cfgExample.storageKey ++ "_refresh") ∈
      (tryToRefreshTokenB cfgExample { initStateB with refreshToken := some "r" }
        RefreshResponse.transportError 0).2.2 ∧
    ∀ resp2 now2,
      tryToRefreshTokenB cfgExample
          (tryToRefreshTokenB cfgExample { initStateB with refreshToken := some "r" }
            RefreshResponse.transportError 0).2.1 resp2 now2 =
        (false,
         (tryToRefreshTokenB cfgExample { initStateB with refreshToken := some "r" }
           RefreshResponse.transportError 0).2.1, []) :=
  (tryToRefreshToken_spec cfgExample { initStateB with refreshToken := some "r" }
    RefreshResponse.transportError 0 "r" rfl (by decide)).2.2 rfl

/-- Claim C9: `RequestService` captures the auth token exactly once at
construction (the value of `getTokens()` at that moment), `setSettings`
does not touch it, `makeRequest` gives identical results whatever the
auth service's state is at call time (a refreshed token is never picked
up), a `none` capture makes every settings-provided `makeRequest` throw
the no-token error, and a captured token `t` is attached as
`Bearer t`. -/
theorem requestService_captures_token_once (auth a1 a2 : StateB) (now : Int)
    (m route apiURL : String) (tk : Bool) (rc : Int) (c : Option CustomApiSettings) :
    (mkRequestService auth now).1.token = (getTokensB auth now).1.1 ∧
    (setSettingsR (mkRequestService auth now).1 apiURL tk rc).token =
      (mkRequestService auth now).1.token ∧
    makeRequestR (mkRequestService auth now).1 a1 m route c =
      makeRequestR (mkRequestService auth now).1 a2 m route c ∧
    ((mkRequestService auth now).1.token = none →
      makeRequestR (setSettingsR (mkRequestService auth now).1 apiURL tk rc) a1 m route c =
        Except.error ReqError.noToken) ∧
    (∀ t, (mkRequestService auth now).1.token = some t → t ≠ "" →
      ∃ spec,
        makeRequestR (setSettingsR (mkRequestService auth now).1 apiURL tk rc) a1 "GET" route c =
          Except.ok spec ∧ spec.authorization = "Bearer " ++ t) := by
  refine ⟨rfl, rfl, rfl, ?_, ?_⟩
  · intro h
    simp [makeRequestR, setSettingsR, h]
  · intro t ht hte
    have htbe : (t == "") = false := by simp [hte]
    simp [makeRequestR, setSettingsR, ht, htbe]

/-- Witness for C9: constructed over a fresh auth state (no token), every
later `makeRequest` throws the no-token error even with settings set and
an arbitrary later auth state. -/
theorem requestService_captures_token_once_witness :
    makeRequestR (setSettingsR (mkRequestService initStateB 0).1 "https://api.example.com/" false 0)
        initStateB "GET" "users" none = Except.error ReqError.noToken :=
  (requestService_captures_token_once initStateB initStateB initStateB 0 "GET" "users"
    "https://api.example.com/" false 0 none).2.2.2.1 rfl

/-- Number of pending host timers of a given kind. -/
def countTimers (st : StateB) (k : TimerKind) : Nat :=
  (st.pending.filter (fun p => decide (p.2 = k))).length

/-- Invariant of the part_000 timer state: browser handles are positive
and fresh, every pending timer's handle is held in the timeout-id field
of its kind, and at most one timer of each kind is pending.  Established
by construction and preserved by `_setTokens`. -/
structure TimersOK (st : StateB) : Prop where
  nextPos : 1 ≤ st.nextTimerId
  fresh : ∀ p ∈ st.pending, 1 ≤ p.1 ∧ p.1 < st.nextTimerId
  linked : ∀ p ∈ st.pending, timerField st p.2 = some p.1
  countLe : ∀ k, countTimers st k ≤ 1

/-- Clearing never adds pending timers. -/
theorem mem_clearKind_pending (st : StateB) (k : TimerKind) (p : Nat × TimerKind)
    (h : p ∈ (clearKind st k).pending) : p ∈ st.pending := by
  unfold clearKind at h
  split at h
  · split at h
    · exact h
    · rw [setTimerField_pending] at h
      exact (List.mem_filter.mp h).1
  · exact h

/-- A pending timer whose (truthy) handle is held in the cleared kind's
field is cancelled by that clear. -/
theorem not_mem_clearKind_pending (st : StateB) (k : TimerKind) (p : Nat × TimerKind)
    (hl : timerField st k = some p.1) (hpos : p.1 ≠ 0) : p ∉ (clearKind st k).pending := by
  unfold clearKind
  rw [hl]
  dsimp only
  rw [if_neg hpos, setTimerField_pending]
  intro hmem
  have := (List.mem_filter.mp hmem).2
  simp at this

/-- Clearing one kind leaves the other kinds' fields unchanged. -/
theorem timerField_clearKind_ne (st : StateB) (k k2 : TimerKind) (h : k2 ≠ k) :
    timerField (clearKind st k) k2 = timerField st k2 := by
  unfold clearKind
  split
  · split
    · rfl
    · rw [timerField_setTimerField_ne _ _ _ _ h]
      cases k2 <;> rfl
  · rfl

/-- From any state satisfying the invariant, `_clearTimers` cancels every
pending timer: each pending entry's handle sits in its own kind's field,
so the three clear blocks remove them all. -/
theorem clearTimersB_pending_nil (st : StateB) (h : TimersOK st) :
    (clearTimersB st).pending = [] := by
  unfold clearTimersB
  rw [List.eq_nil_iff_forall_not_mem]
  intro p hp
  have hp2 : p ∈ (clearKind (clearKind st TimerKind.refresh) TimerKind.tenMin).pending :=
    mem_clearKind_pending _ _ _ hp
  have hp1 : p ∈ (clearKind st TimerKind.refresh).pending := mem_clearKind_pending _ _ _ hp2
  have hp0 : p ∈ st.pending := mem_clearKind_pending _ _ _ hp1
  have hpos : p.1 ≠ 0 := by
    have := (h.fresh p hp0).1
    omega
  have hl := h.linked p hp0
  rcases p with ⟨pid, pk⟩
  cases pk
  · exact not_mem_clearKind_pending st TimerKind.refresh ⟨pid, TimerKind.refresh⟩ hl hpos hp1
  · have hl2 : timerField (clearKind st TimerKind.refresh) TimerKind.tenMin = some pid := by
      rw [timerField_clearKind_ne _ _ _ (by decide)]
      exact hl
    exact not_mem_clearKind_pending _ TimerKind.tenMin ⟨pid, TimerKind.tenMin⟩ hl2 hpos hp2
  · have hl2 : timerField (clearKind (clearKind st TimerKind.refresh) TimerKind.tenMin)
        TimerKind.redirect = some pid := by
      rw [timerField_clearKind_ne _ _ _ (by decide), timerField_clearKind_ne _ _ _ (by decide)]
      exact hl
    exact not_mem_clearKind_pending _ TimerKind.redirect ⟨pid, TimerKind.redirect⟩ hl2 hpos hp

/-- No timers are pending in an empty table. -/
theorem countTimers_nil (st : StateB) (h : st.pending = []) (k : TimerKind) :
    countTimers st k = 0 := by
  simp [countTimers, h]

/-- A pending entry of a kind makes that kind's count positive. -/
theorem countTimers_pos_of_mem (st : StateB) (k : TimerKind) (p : Nat × TimerKind)
    (hp : p ∈ st.pending) (hk : p.2 = k) : 1 ≤ countTimers st k := by
  have hmem : p ∈ st.pending.filter (fun p => decide (p.2 = k)) :=
    List.mem_filter.mpr ⟨hp, by simp [hk]⟩
  exact List.length_pos_of_mem hmem

/-- Arming increments the armed kind's count. -/
theorem countTimers_armTimer_same (st : StateB) (k : TimerKind) :
    countTimers (armTimer st k) k = countTimers st k + 1 := by
  simp [countTimers, armTimer_pending, List.filter_append]

/-- Arming leaves the other kinds' counts unchanged. -/
theorem countTimers_armTimer_ne (st : StateB) (k k2 : TimerKind) (h : k2 ≠ k) :
    countTimers (armTimer st k) k2 = countTimers st k2 := by
  simp [countTimers, armTimer_pending, List.filter_append, Ne.symm h]

/-- A state with no pending timers satisfies the invariant (whatever
stale values the timeout-id fields hold). -/
theorem timersOK_of_nil (st : StateB) (h1 : st.pending = []) (h2 : 1 ≤ st.nextTimerId) :
    TimersOK st := by
  refine ⟨h2, ?_, ?_, ?_⟩
  · intro p hp
    rw [h1] at hp
    cases hp
  · intro p hp
    rw [h1] at hp
    cases hp
  · intro k
    rw [countTimers_nil st h1 k]
    omega

/-- Arming a kind with no pending timer of that kind preserves the
invariant. -/
theorem timersOK_armTimer (st : StateB) (k : TimerKind) (h : TimersOK st)
    (hc : countTimers st k = 0) : TimersOK (armTimer st k) := by
  refine ⟨?_, ?_, ?_, ?_⟩
  · rw [armTimer_nextTimerId]
    have := h.nextPos
    omega
  · intro p hp
    rw [armTimer_pending] at hp
    rcases List.mem_append.mp hp with hp | hp
    · have := h.fresh p hp
      rw [armTimer_nextTimerId]
      omega
    · have hpe : p = (st.nextTimerId, k) := by simpa using hp
      subst hpe
      have := h.nextPos
      rw [armTimer_nextTimerId]
      exact ⟨this, by omega⟩
  · intro p hp
    rw [armTimer_pending] at hp
    rcases List.mem_append.mp hp with hp | hp
    · by_cases hpk : p.2 = k
      · have := countTimers_pos_of_mem st k p hp hpk
        omega
      · rw [timerField_armTimer_ne st k p.2 hpk]
        exact h.linked p hp
    · have hpe : p = (st.nextTimerId, k) := by simpa using hp
      subst hpe
      exact timerField_armTimer_same st k
  · intro k2
    by_cases hk : k2 = k
    · subst hk
      rw [countTimers_armTimer_same, hc]
    · rw [countTimers_armTimer_ne st k k2 hk]
      exact h.countLe k2

/-- Updating the token-data fields does not affect the timer invariant. -/
theorem timersOK_update_data (st : StateB) (h : TimersOK st) (tok rtok : Option String)
    (hT : Bool) (ti : Option TokenInfoB) :
    TimersOK { st with token := tok, refreshToken := rtok, hasToken := hT, tokenInfo := ti } := by
  refine ⟨h.nextPos, h.fresh, ?_, h.countLe⟩
  intro p hp
  have hl := h.linked p hp
  rcases p with ⟨pid, pk⟩
  cases pk <;> exact hl

/-- The popup/refresh scheduler preserves the invariant when no refresh
or ten-minute timer is pending, and never arms a redirect timer. -/
theorem timersOK_scheduleExpiryPopupB (cfg : ConfigB) (st : StateB) (s : Int) (h : TimersOK st)
    (hrefresh : countTimers st TimerKind.refresh = 0)
    (hten : countTimers st TimerKind.tenMin = 0) :
    TimersOK (scheduleExpiryPopupB cfg st s) ∧
    countTimers (scheduleExpiryPopupB cfg st s) TimerKind.redirect =
      countTimers st TimerKind.redirect := by
  unfold scheduleExpiryPopupB
  dsimp only
  split
  · split
    · constructor
      · apply timersOK_armTimer _ _ (timersOK_armTimer st _ h hrefresh)
        rw [countTimers_armTimer_ne _ _ _ (by decide)]
        exact hten
      · rw [countTimers_armTimer_ne _ _ _ (by decide),
            countTimers_armTimer_ne _ _ _ (by decide)]
    · exact ⟨timersOK_armTimer st _ h hrefresh,
        countTimers_armTimer_ne _ _ _ (by decide)⟩
  · exact ⟨h, rfl⟩

/-- `_scheduleExpiration` preserves the invariant: it clears every
pending timer first and then arms at most one timer of each kind. -/
theorem timersOK_scheduleExpirationB (cfg : ConfigB) (st : StateB) (h : TimersOK st) :
    TimersOK (scheduleExpirationB cfg st) := by
  unfold scheduleExpirationB
  dsimp only
  have hnil : (clearTimersB st).pending = [] := clearTimersB_pending_nil st h
  have hnext : 1 ≤ (clearTimersB st).nextTimerId := by
    rw [clearTimersB_nextTimerId]
    exact h.nextPos
  have h0 : TimersOK (clearTimersB st) := timersOK_of_nil _ hnil hnext
  split
  · exact h0
  · split
    · split
      · have hpair := fun s2 => timersOK_scheduleExpiryPopupB cfg (clearTimersB st) s2 h0
          (countTimers_nil _ hnil _) (countTimers_nil _ hnil _)
        apply timersOK_armTimer _ _ (hpair _).1
        rw [(hpair _).2]
        exact countTimers_nil _ hnil _
      · exact h0
    · exact h0

/-- `_setTokens` preserves the timer invariant. -/
theorem timersOK_setTokensB (cfg : ConfigB) (st : StateB) (tok : String) (rtok : Option String)
    (now : Int) (h : TimersOK st) : TimersOK (setTokensB cfg st tok rtok now).2 := by
  unfold setTokensB
  dsimp only
  cases hE : extractInfoB (effToken none (some tok)) now with
  | error e =>
    exact timersOK_update_data st h _ _ _ _
  | ok info =>
    exact timersOK_scheduleExpirationB cfg _ (timersOK_update_data st h _ _ _ _)

/-- Claim C2: calling `_setTokens` (part_000) twice in a row with the
same token leaves exactly one active set of timers — from any state
satisfying the timer invariant, after the second call (and already after
the first) at most one refresh timer, one warning-popup timer and one
redirect timer are pending, and the second call's re-arming pass first
cancelled every previously armed handle (`_clearTimers` empties the
pending table). -/
theorem setTokens_twice_single_timer_set (cfg : ConfigB) (st : StateB) (tok : String)
    (rtok : Option String) (now now2 : Int) (h : TimersOK st) :
    TimersOK ((setTokensB cfg (setTokensB cfg st tok rtok now).2 tok rtok now2).2) ∧
    (∀ k, countTimers ((setTokensB cfg (setTokensB cfg st tok rtok now).2 tok rtok now2).2) k ≤ 1) ∧
    (∀ k, countTimers ((setTokensB cfg st tok rtok now).2) k ≤ 1) ∧
    (clearTimersB ((setTokensB cfg st tok rtok now).2)).pending = [] := by
  have h1 := timersOK_setTokensB cfg st tok rtok now h
  have h2 := timersOK_setTokensB cfg _ tok rtok now2 h1
  exact ⟨h2, h2.countLe, h1.countLe, clearTimersB_pending_nil _ h1⟩

/-- Witness for C2: two `_setTokens` calls with the same valid token from
a fresh state leave at most one pending timer of each kind, and the
re-arming pass begins from a fully cleared table. -/
theorem setTokens_twice_single_timer_set_witness :
    TimersOK ((setTokensB cfgExample
      (setTokensB cfgExample initStateB
        "h.eyJleHAiOjEwMCwidXNlcm5hbWUiOiJBbGljZSIsImRhdGFiYXNlIjoiZGIxIn0.s" none 0).2
      "h.eyJleHAiOjEwMCwidXNlcm5hbWUiOiJBbGljZSIsImRhdGFiYXNlIjoiZGIxIn0.s" none 1).2) ∧
    (∀ k, countTimers ((setTokensB cfgExample
      (setTokensB cfgExample initStateB
        "h.eyJleHAiOjEwMCwidXNlcm5hbWUiOiJBbGljZSIsImRhdGFiYXNlIjoiZGIxIn0.s" none 0).2
      "h.eyJleHAiOjEwMCwidXNlcm5hbWUiOiJBbGljZSIsImRhdGFiYXNlIjoiZGIxIn0.s" none 1).2) k ≤ 1) ∧
    (∀ k, countTimers ((setTokensB cfgExample initStateB
      "h.eyJleHAiOjEwMCwidXNlcm5hbWUiOiJBbGljZSIsImRhdGFiYXNlIjoiZGIxIn0.s" none 0).2) k ≤ 1) ∧
    (clearTimersB ((setTokensB cfgExample initStateB
      "h.eyJleHAiOjEwMCwidXNlcm5hbWUiOiJBbGljZSIsImRhdGFiYXNlIjoiZGIxIn0.s" none 0).2)).pending = [] :=
  setTokens_twice_single_timer_set cfgExample initStateB
    "h.eyJleHAiOjEwMCwidXNlcm5hbWUiOiJBbGljZSIsImRhdGFiYXNlIjoiZGIxIn0.s" none 0 1
    ⟨le_refl 1,
     by intro p hp; simp [initStateB] at hp,
     by intro p hp; simp [initStateB] at hp,
     by intro k; simp [countTimers, initStateB]⟩
